import Mathlib

/-
Verification of the drone live detection and tracking backend.

The repository's serving layer is src/backend/main.py: a FastAPI app
wiring a DroneTracker engine (tracker.py, not part of the snapshot) to
HTTP endpoints, an MJPEG video generator and a WebSocket broadcaster.
We embed the serving-layer functions shallowly: the tracker is a record
of observable engine state, its methods are state transformers, and each
endpoint is a pure function from the optional tracker (the global may be
None) to the new tracker, the HTTP-level result, and the ordered list of
tracker method calls it performed.
-/

namespace DroneTrack

/-- An image buffer: either a frame captured from the camera, or a black
480x640 canvas with a text overlay drawn on it (the placeholder frames
that generate_frames builds with np.zeros and cv2.putText). -/
inductive Frame where
  | captured (id : Nat)
  | blackWithText (text : String)
deriving DecidableEq

/-- A bounding box: four numeric coordinates in frame space. -/
structure Box where
  x1 : Nat
  y1 : Nat
  x2 : Nat
  y2 : Nat
deriving DecidableEq

/-- A live track: unique id, start timestamp, last-seen timestamp,
last-seen bounding box, and the consecutive-miss counter. -/
structure Track where
  id : Nat
  startTs : Nat
  lastSeenTs : Nat
  lastBox : Box
  miss : Nat
deriving DecidableEq

/-- The durable record emitted when a track terminates: start and end
timestamps (end is the track's last-seen timestamp). -/
structure DetectionRec where
  startTs : Nat
  endTs : Nat
deriving DecidableEq

/-- Observable state of the DroneTracker engine: the running flag, the
today-detection count, whether the Frame Source would open on demand,
the latest captured frame (if any), and the set of live tracks. -/
structure DroneTracker where
  running : Bool
  todayCount : Nat
  sourceOpens : Bool
  latestFrame : Option Frame
  liveTracks : List Track
deriving DecidableEq

/-- The CameraStatus response model returned by the camera endpoints
(fields is_running, message, total_detections_today). -/
structure CameraStatus where
  is_running : Bool
  message : String
  total_detections_today : Nat
deriving DecidableEq

/-- Result of an endpoint call: a successful response body, or an
HTTPException with a status code and detail string. -/
inductive ApiResult where
  | ok (status : CameraStatus)
  | httpError (code : Nat) (detail : String)
deriving DecidableEq

/-- The tracker methods the serving layer can invoke; endpoint
embeddings log the calls they make, in order. -/
inductive TrackerCall where
  | isRunning
  | getCount
  | startCall
  | stopCall
  | getFrame
deriving DecidableEq

/-- A JSON scalar value, enough for the message payloads the backend
serializes (strings, booleans, counts). -/
inductive JVal where
  | jstr (s : String)
  | jbool (b : Bool)
  | jnat (n : Nat)
deriving DecidableEq

/-- Modelled from the spec: tracker.py is not in the snapshot.
is_camera_running is a non-blocking read of the running flag. -/
def DroneTracker.is_camera_running (t : DroneTracker) : DroneTracker × Bool :=
  (t, t.running)

/-- Modelled from the spec: tracker.py is not in the snapshot.
get_today_detection_count is a non-blocking read of today's count. -/
def DroneTracker.get_today_detection_count (t : DroneTracker) : DroneTracker × Nat :=
  (t, t.todayCount)

/-- Modelled from the spec: tracker.py is not in the snapshot.
get_latest_frame is a non-blocking read of the latest frame buffer. -/
def DroneTracker.get_latest_frame (t : DroneTracker) : DroneTracker × Option Frame :=
  (t, t.latestFrame)

/-- Modelled from the spec: tracker.py is not in the snapshot. start
fails (false) if already running or if the Frame Source cannot be
opened; otherwise it transitions to running and returns true. -/
def DroneTracker.start (t : DroneTracker) : DroneTracker × Bool :=
  if t.running then (t, false)
  else if t.sourceOpens then ({ t with running := true }, true)
  else (t, false)

/-- Modelled from the spec: tracker.py is not in the snapshot. stop
signals the loop to exit, flushes live tracks, closes the Frame Source
and transitions to stopped, returning true. -/
def DroneTracker.stop (t : DroneTracker) : DroneTracker × Bool :=
  ({ t with running := false, liveTracks := [] }, true)

/-- Embedding of str.lower() applied to the action path parameter:
every character is lowercased. Defined over the character list so that
it evaluates by kernel reduction. -/
def pyLower (s : String) : String :=
  String.mk (s.data.map Char.toLower)

/-- Embedding of the POST /camera/\x7baction\x7d handler camera_control
in main.py: 503 if the global tracker is None; on "start" (compared
case-insensitively) a no-op success if already running, else the boolean
from tracker.start decides between a success body and a 500; on "stop"
symmetrically; otherwise 400. Returns the tracker state after the call,
the HTTP result, and the tracker methods invoked in order. -/
def camera_control (action : String) (tk : Option DroneTracker) :
    Option DroneTracker × ApiResult × List TrackerCall :=
  match tk with
  | none => (none, .httpError 503 "Tracker not initialized", [])
  | some t =>
    if pyLower action = "start" then
      let (t1, r) := t.is_camera_running
      if r then
        let (t2, c) := t1.get_today_detection_count
        (some t2, .ok ⟨true, "Camera is already running", c⟩,
          [.isRunning, .getCount])
      else
        let (t2, success) := t1.start
        if success then
          let (t3, c) := t2.get_today_detection_count
          (some t3, .ok ⟨true, "Camera started successfully", c⟩,
            [.isRunning, .startCall, .getCount])
        else
          (some t2, .httpError 500 "Failed to start camera",
            [.isRunning, .startCall])
    else if pyLower action = "stop" then
      let (t1, r) := t.is_camera_running
      if !r then
        let (t2, c) := t1.get_today_detection_count
        (some t2, .ok ⟨false, "Camera is already stopped", c⟩,
          [.isRunning, .getCount])
      else
        let (t2, success) := t1.stop
        if success then
          let (t3, c) := t2.get_today_detection_count
          (some t3, .ok ⟨false, "Camera stopped successfully", c⟩,
            [.isRunning, .stopCall, .getCount])
        else
          (some t2, .httpError 500 "Failed to stop camera",
            [.isRunning, .stopCall])
    else
      (some t, .httpError 400 "Invalid action. Use 'start' or 'stop'", [])

/-- Embedding of the GET /camera/status handler camera_status in
main.py: if the tracker is None it returns a stopped status with count 0
and an explanatory message; otherwise it reads the running flag and
today's count and reports them. -/
def camera_status (tk : Option DroneTracker) :
    Option DroneTracker × CameraStatus :=
  match tk with
  | none => (none, ⟨false, "Tracker not initialized", 0⟩)
  | some t =>
    let (t1, r) := t.is_camera_running
    let (t2, c) := t1.get_today_detection_count
    (some t2, ⟨r, "Camera status retrieved", c⟩)

/-- Embedding of the GET /health handler health_check in main.py, as the
key-value list it serializes; ts stands for datetime.now().isoformat(). -/
def health_check (tk : Option DroneTracker) (ts : String) :
    List (String × JVal) :=
  [("status", .jstr "healthy"),
   ("tracker_initialized", .jbool tk.isSome),
   ("camera_running",
     .jbool (match tk with
             | some t => t.is_camera_running.2
             | none => false)),
   ("timestamp", .jstr ts)]

/-- Embedding of the initial status message the /ws websocket handler
sends right after manager.connect, when the global tracker is not None:
the JSON object it builds, as an ordered key-value list. -/
def websocket_initial_status (t : DroneTracker) (ts : String) :
    List (String × JVal) :=
  [("event", .jstr "status_update"),
   ("is_running", .jbool t.is_camera_running.2),
   ("total_detections_today", .jnat t.get_today_detection_count.2),
   ("timestamp", .jstr ts)]

/-- Embedding of the initial-send phase of the /ws handler: sends the
initial status message exactly when the tracker is initialized. -/
def websocket_on_connect (tk : Option DroneTracker) (ts : String) :
    Option (List (String × JVal)) :=
  match tk with
  | none => none
  | some t => some (websocket_initial_status t ts)

/-- One yielded multipart chunk of the video stream: the frame that was
JPEG-encoded into it and the encoded bytes. -/
structure Chunk where
  frame : Frame
  body : List Nat
deriving DecidableEq

/-- Embedding of one iteration of the generate_frames loop body in
main.py, for an initialized tracker. encode stands for cv2.imencode to
JPEG (None when encoding fails). If the camera is running and a latest
frame exists it is encoded and yielded; if the camera is running but the
latest frame is None the serving layer builds and yields the black
"No camera feed" placeholder; if the camera is not running it builds and
yields the black "Camera Stopped" placeholder; when encoding fails the
iteration yields nothing. -/
def generate_frames_step (t : DroneTracker)
    (encode : Frame → Option (List Nat)) : Option Chunk :=
  if t.is_camera_running.2 then
    match t.get_latest_frame.2 with
    | some f =>
      match encode f with
      | some b => some ⟨f, b⟩
      | none => none
    | none =>
      match encode (.blackWithText "No camera feed") with
      | some b => some ⟨.blackWithText "No camera feed", b⟩
      | none => none
  else
    match encode (.blackWithText "Camera Stopped") with
    | some b => some ⟨.blackWithText "Camera Stopped", b⟩
    | none => none

/-- Embedding of ConnectionManager.disconnect in main.py: if the
websocket is in the active list, remove its first occurrence (Python
list.remove); connections are identified by a Nat id. -/
def disconnect (conns : List Nat) (ws : Nat) : List Nat :=
  if ws ∈ conns then conns.erase ws else conns

/-- Embedding of ConnectionManager.broadcast in main.py. sendOk c tells
whether send_text on connection c succeeds or raises. If the active list
is empty the method returns at once having sent nothing; otherwise it
attempts the send on every active connection in order, collects the ones
that raised, and removes each of them via disconnect. Returns the active
list after the call and the list of connections a send was attempted
on. -/
def broadcast (conns : List Nat) (sendOk : Nat → Bool) :
    List Nat × List Nat :=
  if conns = [] then (conns, [])
  else
    let disconnected := conns.filter (fun c => !(sendOk c))
    (disconnected.foldl disconnect conns, conns)

/-- Modelled from the spec: the Track Manager (tracker.py) is not in the
snapshot. Per-frame update of one live track, given the candidate box it
was associated to (none when unmatched): a matched track updates its
last-seen timestamp and box and resets its miss counter; an unmatched
track increments its miss counter and, when the counter exceeds the
grace threshold, terminates, emitting a Detection record with the
track's start and last-seen timestamps. -/
def step_track (grace ts : Nat) (assoc : Option Box) (t : Track) :
    Option Track × Option DetectionRec :=
  match assoc with
  | some box =>
    (some { t with lastSeenTs := ts, lastBox := box, miss := 0 }, none)
  | none =>
    let t' := { t with miss := t.miss + 1 }
    if grace < t'.miss then (none, some ⟨t.startTs, t.lastSeenTs⟩)
    else (some t', none)

/-- Modelled from the spec: the Track Manager (tracker.py) is not in the
snapshot. Per-frame update of the whole live set: each track is updated
by step_track under the association; survivors form the new live set and
the terminated tracks emit Detection records. -/
def step_frame (grace ts : Nat) (assoc : Track → Option Box)
    (tracks : List Track) : List Track × List DetectionRec :=
  (tracks.filterMap (fun t => (step_track grace ts (assoc t) t).1),
   tracks.filterMap (fun t => (step_track grace ts (assoc t) t).2))

/-- C1: a camera-control call whose action lowercases to "start", on an
initialized tracker that reports running, returns success with
is_running = true and the current detection count, leaves the tracker
state (hence the Frame Source and the live track set) untouched, and
never invokes the tracker's start operation. -/
theorem start_already_running_noop (action : String) (t : DroneTracker)
    (ha : pyLower action = "start") (hr : t.running = true) :
    camera_control action (some t) =
      (some t, .ok ⟨true, "Camera is already running", t.todayCount⟩,
        [.isRunning, .getCount]) ∧
    TrackerCall.startCall ∉ (camera_control action (some t)).2.2 := by
  have h : camera_control action (some t) =
      (some t, .ok ⟨true, "Camera is already running", t.todayCount⟩,
        [.isRunning, .getCount]) := by
    simp [camera_control, ha, hr, DroneTracker.is_camera_running,
      DroneTracker.get_today_detection_count]
  exact ⟨h, by rw [h]; simp⟩

/-- Witness for C1 at a concrete running tracker. -/
theorem start_already_running_noop_witness :
    pyLower "START" = "start" ∧
    (camera_control "START" (some ⟨true, 2, true, none, []⟩) =
      (some ⟨true, 2, true, none, []⟩,
        .ok ⟨true, "Camera is already running", 2⟩,
        [.isRunning, .getCount]) ∧
    TrackerCall.startCall ∉
      (camera_control "START" (some ⟨true, 2, true, none, []⟩)).2.2) :=
  ⟨by decide, start_already_running_noop "START" ⟨true, 2, true, none, []⟩
    (by decide) rfl⟩

/-- C2: a camera-control call whose action lowercases to "stop", on an
initialized tracker that reports not running, returns is_running = false
with the current detection count, leaves the tracker state untouched,
and never invokes the tracker's stop operation. -/
theorem stop_already_stopped_noop (action : String) (t : DroneTracker)
    (ha : pyLower action = "stop") (hr : t.running = false) :
    camera_control action (some t) =
      (some t, .ok ⟨false, "Camera is already stopped", t.todayCount⟩,
        [.isRunning, .getCount]) ∧
    TrackerCall.stopCall ∉ (camera_control action (some t)).2.2 := by
  have hne : ¬ pyLower action = "start" := by rw [ha]; decide
  have h : camera_control action (some t) =
      (some t, .ok ⟨false, "Camera is already stopped", t.todayCount⟩,
        [.isRunning, .getCount]) := by
    simp [camera_control, ha, hne, hr, DroneTracker.is_camera_running,
      DroneTracker.get_today_detection_count]
  exact ⟨h, by rw [h]; simp⟩

/-- Witness for C2 at a concrete stopped tracker. -/
theorem stop_already_stopped_noop_witness :
    pyLower "stop" = "stop" ∧
    (camera_control "stop" (some ⟨false, 4, true, none, []⟩) =
      (some ⟨false, 4, true, none, []⟩,
        .ok ⟨false, "Camera is already stopped", 4⟩,
        [.isRunning, .getCount]) ∧
    TrackerCall.stopCall ∉
      (camera_control "stop" (some ⟨false, 4, true, none, []⟩)).2.2) :=
  ⟨by decide, stop_already_stopped_noop "stop" ⟨false, 4, true, none, []⟩
    (by decide) rfl⟩

/-- C3: a camera-control call whose action lowercases to "start", on an
initialized tracker that is not running, is decided by the boolean the
tracker's start operation returns: true yields a success status with
is_running = true and the detection count of the started engine, false
yields an HTTP 500 error and no success body. -/
theorem start_outcome_decided_by_engine (action : String) (t : DroneTracker)
    (ha : pyLower action = "start") (hr : t.running = false) :
    (t.start.2 = true →
      (camera_control action (some t)).2.1 =
        .ok ⟨true, "Camera started successfully", t.start.1.todayCount⟩) ∧
    (t.start.2 = false →
      (camera_control action (some t)).2.1 =
        .httpError 500 "Failed to start camera") := by
  constructor
  · intro hs
    simp [camera_control, ha, hr, DroneTracker.is_camera_running,
      DroneTracker.get_today_detection_count, hs]
  · intro hs
    simp [camera_control, ha, hr, DroneTracker.is_camera_running,
      DroneTracker.get_today_detection_count, hs]

/-- Witness for C3 at a concrete stopped tracker whose Frame Source
opens, so start succeeds. -/
theorem start_outcome_decided_by_engine_witness :
    pyLower "start" = "start" ∧
    (DroneTracker.start ⟨false, 6, true, none, []⟩).2 = true ∧
    (camera_control "start" (some ⟨false, 6, true, none, []⟩)).2.1 =
      .ok ⟨true, "Camera started successfully", 6⟩ :=
  ⟨by decide, by decide,
    (start_outcome_decided_by_engine "start" ⟨false, 6, true, none, []⟩
      (by decide) rfl).1 (by decide)⟩

/-- C4: a camera-control call on an initialized tracker whose action
lowercases to neither "start" nor "stop" is rejected with HTTP 400, the
tracker state is untouched, and no tracker operation is invoked. -/
theorem invalid_action_rejected (action : String) (t : DroneTracker)
    (h1 : pyLower action ≠ "start") (h2 : pyLower action ≠ "stop") :
    camera_control action (some t) =
      (some t, .httpError 400 "Invalid action. Use 'start' or 'stop'",
        []) := by
  simp [camera_control, h1, h2]

/-- Witness for C4 at the concrete action "status". -/
theorem invalid_action_rejected_witness :
    pyLower "status" ≠ "start" ∧ pyLower "status" ≠ "stop" ∧
    camera_control "status" (some ⟨true, 1, true, none, []⟩) =
      (some ⟨true, 1, true, none, []⟩,
        .httpError 400 "Invalid action. Use 'start' or 'stop'", []) :=
  ⟨by decide, by decide,
    invalid_action_rejected "status" ⟨true, 1, true, none, []⟩
      (by decide) (by decide)⟩

/-- C6 counterexample: the initial websocket status message carries no
field named today_detection_count — the count field the handler writes
is named total_detections_today. -/
theorem websocket_field_name_counterexample :
    "today_detection_count" ∉
      (websocket_initial_status ⟨true, 3, true, none, []⟩
        "2026-01-01T00:00:00").map Prod.fst := by
  decide

/-- C6 (amended): on a websocket connection with the tracker
initialized, the handler immediately sends one status_update event whose
payload consists of the fields is_running, total_detections_today and
timestamp plus the event kind, with is_running equal to the tracker's
running flag and the count equal to the today-detection count. -/
theorem websocket_initial_status_correct (t : DroneTracker) (ts : String) :
    websocket_on_connect (some t) ts =
      some [("event", .jstr "status_update"),
            ("is_running", .jbool t.running),
            ("total_detections_today", .jnat t.todayCount),
            ("timestamp", .jstr ts)] := rfl

/-- C8: the camera-status endpoint performs only reads — the tracker
state after the call equals the state before — and reports is_running
equal to the running flag and total detections equal to the
today-detection count. -/
theorem camera_status_pure_read (t : DroneTracker) :
    camera_status (some t) =
      (some t, ⟨t.running, "Camera status retrieved", t.todayCount⟩) := rfl

/-- C9: with the tracker uninitialized the read-only endpoints are
total: camera status reports not running, count 0 and an explanatory
message, and the health check reports healthy with
tracker_initialized = false and camera_running = false. -/
theorem uninitialized_reads_total (ts : String) :
    camera_status none = (none, ⟨false, "Tracker not initialized", 0⟩) ∧
    health_check none ts =
      [("status", .jstr "healthy"),
       ("tracker_initialized", .jbool false),
       ("camera_running", .jbool false),
       ("timestamp", .jstr ts)] := ⟨rfl, rfl⟩

/-- C7: in an iteration of the frame generator with no real frame
available — the camera running with a None latest frame, or the camera
not running — the serving layer itself builds the placeholder image and
yields its JPEG encoding, provided encoding succeeds. -/
theorem serving_layer_substitutes_placeholder (t : DroneTracker)
    (encode : Frame → Option (List Nat)) :
    (t.running = true → t.latestFrame = none →
      ∀ b, encode (.blackWithText "No camera feed") = some b →
        generate_frames_step t encode =
          some ⟨.blackWithText "No camera feed", b⟩) ∧
    (t.running = false →
      ∀ b, encode (.blackWithText "Camera Stopped") = some b →
        generate_frames_step t encode =
          some ⟨.blackWithText "Camera Stopped", b⟩) := by
  constructor
  · intro hr hf b he
    simp [generate_frames_step, DroneTracker.is_camera_running,
      DroneTracker.get_latest_frame, hr, hf, he]
  · intro hr b he
    simp [generate_frames_step, DroneTracker.is_camera_running, hr, he]

/-- Witness for C7 at a concrete stopped tracker and an encoder that
always succeeds. -/
theorem serving_layer_substitutes_placeholder_witness :
    generate_frames_step ⟨false, 0, true, none, []⟩ (fun _ => some [7]) =
      some ⟨.blackWithText "Camera Stopped", [7]⟩ :=
  (serving_layer_substitutes_placeholder ⟨false, 0, true, none, []⟩
    (fun _ => some [7])).2 rfl [7] rfl

/-- C5: in every processed frame, a live track is removed from the live
set and emits a Detection record (with the track's start and last-seen
timestamps) exactly when it was unmatched and its incremented miss
counter strictly exceeds the grace threshold — never one frame earlier
or later. -/
theorem track_terminates_iff_miss_exceeds_grace (grace ts : Nat)
    (assoc : Track → Option Box) (tracks : List Track) (t : Track)
    (ht : t ∈ tracks) :
    ((step_track grace ts (assoc t) t).1 = none ∧
      (step_track grace ts (assoc t) t).2 =
        some ⟨t.startTs, t.lastSeenTs⟩ ∧
      DetectionRec.mk t.startTs t.lastSeenTs ∈
        (step_frame grace ts assoc tracks).2)
    ↔ (assoc t = none ∧ grace < t.miss + 1) := by
  constructor
  · rintro ⟨h1, _h2, _h3⟩
    cases ha : assoc t with
    | some b => rw [ha] at h1; simp [step_track] at h1
    | none =>
      refine ⟨rfl, ?_⟩
      rw [ha] at h1
      by_contra hg
      simp [step_track, hg] at h1
  · rintro ⟨ha, hg⟩
    have h2 : (step_track grace ts (assoc t) t).2 =
        some ⟨t.startTs, t.lastSeenTs⟩ := by
      simp [step_track, ha, hg]
    refine ⟨by simp [step_track, ha, hg], h2, ?_⟩
    exact List.mem_filterMap.2 ⟨t, ht, h2⟩

/-- Witness for C5: a track with miss counter at the grace threshold,
unmatched in the current frame, terminates exactly now. -/
theorem track_terminates_witness :
    (⟨1, 2, 4, ⟨0, 0, 1, 1⟩, 5⟩ : Track) ∈
      [(⟨1, 2, 4, ⟨0, 0, 1, 1⟩, 5⟩ : Track)] ∧
    (((step_track 5 10 none (⟨1, 2, 4, ⟨0, 0, 1, 1⟩, 5⟩ : Track)).1 =
        none ∧
      (step_track 5 10 none (⟨1, 2, 4, ⟨0, 0, 1, 1⟩, 5⟩ : Track)).2 =
        some ⟨2, 4⟩ ∧
      DetectionRec.mk 2 4 ∈
        (step_frame 5 10 (fun _ => none)
          [(⟨1, 2, 4, ⟨0, 0, 1, 1⟩, 5⟩ : Track)]).2)
    ↔ ((none : Option Box) = none ∧ 5 < 5 + 1)) :=
  ⟨List.mem_singleton.2 rfl,
    track_terminates_iff_miss_exceeds_grace 5 10 (fun _ => none)
      [⟨1, 2, 4, ⟨0, 0, 1, 1⟩, 5⟩] ⟨1, 2, 4, ⟨0, 0, 1, 1⟩, 5⟩
      (List.mem_singleton.2 rfl)⟩

/-- The membership-checked removal of ConnectionManager.disconnect
coincides with erasing the first occurrence. -/
theorem disconnect_eq_erase (conns : List Nat) (ws : Nat) :
    disconnect conns ws = conns.erase ws := by
  unfold disconnect
  by_cases h : ws ∈ conns
  · simp [h]
  · simp [h, List.erase_of_not_mem h]

/-- Removing a batch of connections all different from the head leaves
the head in place. -/
theorem foldl_disconnect_cons (l : List Nat) (x : Nat) (xs : List Nat)
    (h : ∀ y ∈ l, y ≠ x) :
    l.foldl disconnect (x :: xs) = x :: l.foldl disconnect xs := by
  induction l generalizing xs with
  | nil => rfl
  | cons y ys ih =>
    have hyx : y ≠ x := h y (List.mem_cons_self y ys)
    have hstep : disconnect (x :: xs) y = x :: disconnect xs y := by
      rw [disconnect_eq_erase, disconnect_eq_erase,
        List.erase_cons_tail (by simp [Ne.symm hyx])]
    rw [List.foldl_cons, hstep, List.foldl_cons,
      ih (disconnect xs y) (fun z hz => h z (List.mem_cons_of_mem y hz))]

/-- Removing from a list exactly the batch of its elements failing p
leaves exactly the elements satisfying p, in order. -/
theorem foldl_disconnect_filter (p : Nat → Bool) (l : List Nat) :
    (l.filter (fun c => !(p c))).foldl disconnect l = l.filter p := by
  induction l with
  | nil => rfl
  | cons x xs ih =>
    by_cases hx : p x
    · have hf1 : (x :: xs).filter (fun c => !(p c)) =
          xs.filter (fun c => !(p c)) := by
        simp [List.filter_cons, hx]
      have hf2 : (x :: xs).filter p = x :: xs.filter p := by
        simp [List.filter_cons, hx]
      rw [hf1, hf2, foldl_disconnect_cons _ x xs ?side, ih]
      case side =>
        intro y hy hyx
        have hmem := List.of_mem_filter hy
        rw [hyx] at hmem
        simp [hx] at hmem
    · have hx' : p x = false := by simpa using hx
      have hf1 : (x :: xs).filter (fun c => !(p c)) =
          x :: xs.filter (fun c => !(p c)) := by
        simp [List.filter_cons, hx']
      have hf2 : (x :: xs).filter p = xs.filter p := by
        simp [List.filter_cons, hx']
      rw [hf1, hf2, List.foldl_cons, disconnect_eq_erase,
        List.erase_cons_head, ih]

/-- C10: broadcast attempts the message on every active connection (and
on none when the list is empty), and afterward the active list consists
exactly of the connections whose send succeeded, in their original
order: every failing connection has been removed and every succeeding
one remains; the embedding is total, so no subscriber failure escapes to
the caller. -/
theorem broadcast_removes_exactly_failed (conns : List Nat)
    (sendOk : Nat → Bool) :
    broadcast conns sendOk = (conns.filter sendOk, conns) := by
  unfold broadcast
  by_cases h : conns = []
  · subst h; rfl
  · simp only [h, if_false]
    rw [foldl_disconnect_filter]

end DroneTrack
